import Mathlib

/-
Verification development for the WebGPU bootstrap repository.

The development shallowly embeds the repository sources:
  * src/webgpu-utils.c   : request bridge (requestAdapterSync / requestDeviceSync),
                           capability inspector (inspectAdapter / inspectDevice),
                           surface binder (create_wgpu_surface), initWebGPU
  * src/main.c           : older standalone variant with its own requestAdapterSync
                           (busy-wait loop) and a leaking inspectAdapter
  * src/unnamed/part_000 : SDL-based main with initApp / closeContext
  * src/unnamed/part_001 : full linear main (adapter, device, queue, submit, teardown)
  * src/unnamed/part_002 : standalone single-file variant (no queue release)

C pointers are modelled as `Option Nat` (none = NULL).  The asynchronous
backend is modelled by an explicit delivery mode: the completion callback runs
either on the same call stack as the request call (sync), only when the
Emscripten pump loop yields (pumped), or never (dropped).  Program executions
are modelled as finite event traces together with an outcome (exit code or an
infinite loop).
-/

namespace WebGPU

/-- A C pointer; `none` models NULL. -/
abbrev Ptr := Option Nat

/-- WGPURequestAdapterStatus; the code only branches on equality with Success. -/
inductive AdapterStatus
  | success
  | unavailable
  | error
  | unknown
deriving DecidableEq, Repr

/-- WGPURequestDeviceStatus; the code only branches on equality with Success. -/
inductive DeviceStatus
  | success
  | error
  | unknown
deriving DecidableEq, Repr

/-- The AdapterRequestData struct of src/webgpu-utils.c (lines 20-23):
a result slot and a completion flag shared between requestAdapterSync and
onAdapterRequestEnded. -/
structure AdapterRequestData where
  adapter : Ptr
  requestEnded : Bool
deriving DecidableEq, Repr

/-- The DeviceRequestData struct of src/webgpu-utils.c (lines 29-32). -/
structure DeviceRequestData where
  device : Ptr
  requestEnded : Bool
deriving DecidableEq, Repr

/-- onAdapterRequestEnded (src/webgpu-utils.c lines 41-56): on Success the
adapter slot is written; otherwise a diagnostic is printed to stderr; in both
cases the completion flag is set.  The second component collects the stderr
lines the callback prints. -/
def onAdapterRequestEnded (status : AdapterStatus) (adapter : Ptr) (message : String)
    (d : AdapterRequestData) : AdapterRequestData × List String :=
  if status = .success then
    ({ d with adapter := adapter, requestEnded := true }, [])
  else
    ({ d with requestEnded := true }, ["Could not get WebGPU adapter: " ++ message])

/-- onDeviceRequestEnded (src/webgpu-utils.c lines 61-76); literally the same
shape as onAdapterRequestEnded. -/
def onDeviceRequestEnded (status : DeviceStatus) (device : Ptr) (message : String)
    (d : DeviceRequestData) : DeviceRequestData × List String :=
  if status = .success then
    ({ d with device := device, requestEnded := true }, [])
  else
    ({ d with requestEnded := true }, ["Could not get WebGPU device: " ++ message])

/-- How the backend delivers the completion callback relative to the request
call: on the same call stack before the request call returns (sync), later but
only when the waiting loop pumps the event loop (pumped), or never (dropped). -/
inductive Delivery
  | sync
  | pumped
  | dropped
deriving DecidableEq, Repr

/-- Build configuration of src/webgpu-utils.c: whether __EMSCRIPTEN__ is
defined (the only configuration in which its wrappers have a wait loop). -/
inductive BuildConfig
  | emscripten
  | native
deriving DecidableEq, Repr

/-- One backend response to an adapter request, plus its delivery mode. -/
structure AdapterBackend where
  delivery : Delivery
  status : AdapterStatus
  adapter : Ptr
  message : String
deriving DecidableEq, Repr

/-- One backend response to a device request, plus its delivery mode. -/
structure DeviceBackend where
  delivery : Delivery
  status : DeviceStatus
  device : Ptr
  message : String
deriving DecidableEq, Repr

/-- Outcome of one call to a synchronous wrapper: it returns a handle with the
completion flag holding the given value at the return point, or the
assert(requestEnded) fires, or the wait loop never terminates. -/
inductive SyncOutcome
  | returns (result : Ptr) (flagAtReturn : Bool)
  | assertFailed
  | diverges
deriving DecidableEq, Repr

/-- requestAdapterSync of src/webgpu-utils.c (lines 89-116).  The request is
issued; under __EMSCRIPTEN__ a pump loop waits for the flag; on the native
build there is no wait loop at all, only assert(adapterData.requestEnded)
directly before the return.  The second component is the stderr log. -/
def requestAdapterSync (cfg : BuildConfig) (b : AdapterBackend) : SyncOutcome × List String :=
  let s1 :=
    match b.delivery with
    | .sync => onAdapterRequestEnded b.status b.adapter b.message
        { adapter := none, requestEnded := false }
    | _ => ({ adapter := none, requestEnded := false }, [])
  match cfg with
  | .emscripten =>
    if s1.1.requestEnded then
      (.returns s1.1.adapter true, s1.2)
    else
      match b.delivery with
      | .pumped =>
        let s2 := onAdapterRequestEnded b.status b.adapter b.message s1.1
        (.returns s2.1.adapter s2.1.requestEnded, s1.2 ++ s2.2)
      | _ => (.diverges, s1.2)
  | .native =>
    if s1.1.requestEnded then
      (.returns s1.1.adapter true, s1.2)
    else
      (.assertFailed, s1.2)

/-- requestAdapterSync of src/main.c (lines 59-93): same as the utils variant
except that an unconditional busy-wait loop with an empty body precedes the
assert, in every build.  The loop performs no pumping, so a callback that
needs the event loop to run is never delivered and the loop spins forever. -/
def requestAdapterSyncMainC (b : AdapterBackend) : SyncOutcome × List String :=
  let s1 :=
    match b.delivery with
    | .sync => onAdapterRequestEnded b.status b.adapter b.message
        { adapter := none, requestEnded := false }
    | _ => ({ adapter := none, requestEnded := false }, [])
  if s1.1.requestEnded then
    (.returns s1.1.adapter true, s1.2)
  else
    (.diverges, s1.2)

/-- requestDeviceSync of src/webgpu-utils.c (lines 121-144), native build.
The __EMSCRIPTEN__ branch of the source is ill-formed: its wait loop reads
adapterData.requestEnded, an identifier that is not declared in
requestDeviceSync (see requestDeviceSyncWaitFlagRef below), so only the
native build compiles; on it there is no wait loop, only the assert. -/
def requestDeviceSync (b : DeviceBackend) : SyncOutcome × List String :=
  let s1 :=
    match b.delivery with
    | .sync => onDeviceRequestEnded b.status b.device b.message
        { device := none, requestEnded := false }
    | _ => ({ device := none, requestEnded := false }, [])
  if s1.1.requestEnded then
    (.returns s1.1.device true, s1.2)
  else
    (.assertFailed, s1.2)

/-- Which request record a wait loop names when it reads a completion flag. -/
inductive FlagRef
  | adapterDataFlag
  | deviceDataFlag
deriving DecidableEq, Repr

/-- The record whose requestEnded field the __EMSCRIPTEN__ wait loop of
requestAdapterSync reads: src/webgpu-utils.c line 108 reads
adapterData.requestEnded. -/
def requestAdapterSyncWaitFlagRef : FlagRef := .adapterDataFlag

/-- The record whose requestEnded field the __EMSCRIPTEN__ wait loop of
requestDeviceSync reads: src/webgpu-utils.c line 136 (and src/unnamed/part_002
line 136) also reads adapterData.requestEnded -- the adapter record, not the
DeviceRequestData record the function created.  adapterData is not even
declared in requestDeviceSync, so the Emscripten build is ill-formed. -/
def requestDeviceSyncWaitFlagRef : FlagRef := .adapterDataFlag

/-- The flag value a wait loop observes, given which record it names and the
current values of the adapter and device completion flags. -/
def waitLoopObservedFlag (ref : FlagRef) (adapterFlag deviceFlag : Bool) : Bool :=
  match ref with
  | .adapterDataFlag => adapterFlag
  | .deviceDataFlag => deviceFlag

/-! ## Surface binder: create_wgpu_surface (src/webgpu-utils.c lines 265-311) -/

/-- The compile-time SDL platform selecting the branch of create_wgpu_surface;
other covers every platform for which none of SDL_PLATFORM_WIN32,
SDL_PLATFORM_APPLE, SDL_PLATFORM_LINUX is defined (the #if chain has no #else
branch). -/
inductive SDLPlatform
  | win32
  | apple
  | linux
  | other
deriving DecidableEq, Repr

/-- The native properties create_wgpu_surface extracts from the SDL window.
SDL_GetPointerProperty returns NULL (none) for a missing property;
SDL_GetNumberProperty returns its default 0. -/
structure SDLWindow where
  win32HWND : Ptr
  appleView : Ptr
  waylandDisplay : Ptr
  waylandSurfacePtr : Ptr
  x11Display : Ptr
  x11Window : Nat
  videoDriver : String
deriving DecidableEq, Repr

/-- The platform-specific chained descriptor variants the code can build. -/
inductive ChainedDescriptor
  | fromWindowsHWND (hinstance : Ptr) (hwnd : Ptr)
  | fromMetalLayer (layer : Ptr)
  | fromWaylandSurface (display : Ptr) (surface : Ptr)
  | fromXlibWindow (display : Ptr) (window : Nat)
deriving DecidableEq, Repr

/-- WGPUSurfaceDescriptor as the code fills it: a label and an optional
chained platform descriptor. -/
structure SurfaceDescriptor where
  label : String
  nextInChain : Option ChainedDescriptor
deriving DecidableEq, Repr

/-- Result of the surface binder.  bindingFailed is the failure outcome the
specification describes; it is part of the codomain so that the specified
behaviour is statable, and the embedded code never produces it. -/
inductive SurfaceResult
  | created (desc : SurfaceDescriptor)
  | bindingFailed
deriving DecidableEq, Repr

/-- create_wgpu_surface (src/webgpu-utils.c lines 265-311).  Windows: HWND
descriptor (hinstance from GetModuleHandle(NULL)); Apple: Metal-layer
descriptor; Linux: Wayland descriptor when the current video driver is
"wayland", otherwise the Xlib fallback; any other platform: no chained
descriptor at all.  In every case wgpuInstanceCreateSurface is called with the
descriptor; there is no failure path and no null-check on any native
property. -/
def create_wgpu_surface (platform : SDLPlatform) (hinstance : Ptr) (w : SDLWindow) :
    SurfaceResult :=
  let base : SurfaceDescriptor := { label := "Cross-Platform Surface", nextInChain := none }
  match platform with
  | .win32 =>
    .created { base with nextInChain := some (.fromWindowsHWND hinstance w.win32HWND) }
  | .apple =>
    .created { base with nextInChain := some (.fromMetalLayer w.appleView) }
  | .linux =>
    if w.videoDriver = "wayland" then
      .created
        { base with nextInChain := some (.fromWaylandSurface w.waylandDisplay w.waylandSurfacePtr) }
    else
      .created
        { base with nextInChain := some (.fromXlibWindow w.x11Display w.x11Window) }
  | .other =>
    .created base

/-! ## Capability inspector (src/webgpu-utils.c lines 152-258) -/

/-- The four limits fields the code reads out of WGPUSupportedLimits. -/
structure WGPULimits where
  maxTextureDimension1D : Nat
  maxTextureDimension2D : Nat
  maxTextureDimension3D : Nat
  maxTextureArrayLayers : Nat
deriving DecidableEq, Repr

/-- The WGPUAdapterProperties fields the code reads. -/
structure AdapterProperties where
  vendorID : Nat
  vendorName : Option String
  architecture : Option String
  deviceID : Nat
  driverDescription : Option String
  adapterType : Nat
  backendType : Nat
deriving DecidableEq, Repr

/-- The immutable backend-side state of an adapter that the inspector queries.
limits = none models a wgpuAdapterGetLimits call that reports failure. -/
structure Adapter where
  limits : Option WGPULimits
  features : List Nat
  properties : AdapterProperties
deriving DecidableEq, Repr

/-- Backend-side state of a device, for inspectDevice. -/
structure Device where
  limits : Option WGPULimits
  features : List Nat
deriving DecidableEq, Repr

/-- wgpuAdapterGetLimits: reports success and fills the limits struct; a
read-only query, the adapter state is returned unchanged. -/
def wgpuAdapterGetLimits (a : Adapter) : (Bool × Option WGPULimits) × Adapter :=
  ((a.limits.isSome, a.limits), a)

/-- First call of the two-call feature enumeration (null output buffer):
returns the entry count only. -/
def wgpuAdapterEnumerateFeaturesCount (a : Adapter) : Nat × Adapter :=
  (a.features.length, a)

/-- Second call of the two-call feature enumeration (non-null buffer):
fills the buffer with the feature list. -/
def wgpuAdapterEnumerateFeaturesFill (a : Adapter) : List Nat × Adapter :=
  (a.features, a)

/-- wgpuAdapterGetProperties: fills the properties struct; read-only. -/
def wgpuAdapterGetProperties (a : Adapter) : AdapterProperties × Adapter :=
  (a.properties, a)

/-- The capability report inspectAdapter prints: limits are omitted when the
limits query fails; features and properties are omitted when the feature
buffer allocation fails (the function returns early on that path). -/
structure CapabilityReport where
  limits : Option WGPULimits
  features : Option (List Nat)
  properties : Option AdapterProperties
deriving DecidableEq, Repr

/-- inspectAdapter (src/webgpu-utils.c lines 152-215): query limits, run the
two-call feature enumeration behind a malloc that may fail (early return on
failure, after which nothing further is reported), then query properties.
Returns the report together with the adapter state as left behind by the
queries. -/
def inspectAdapter (a : Adapter) (mallocOk : Bool) : CapabilityReport × Adapter :=
  let r1 := wgpuAdapterGetLimits a
  let limitsPart := if r1.1.1 then r1.1.2 else none
  let r2 := wgpuAdapterEnumerateFeaturesCount r1.2
  if mallocOk then
    let r3 := wgpuAdapterEnumerateFeaturesFill r2.2
    let r4 := wgpuAdapterGetProperties r3.2
    ({ limits := limitsPart, features := some r3.1, properties := some r4.1 }, r4.2)
  else
    ({ limits := limitsPart, features := none, properties := none }, r2.2)

/-- Heap events of an inspector call: one malloc of the feature buffer (with
its element count) or one free of that buffer. -/
inductive MemEvent
  | alloc (count : Nat)
  | free
deriving DecidableEq, Repr

/-- Number of successful allocations in a heap trace. -/
def allocCount (l : List MemEvent) : Nat :=
  l.countP fun e => match e with | .alloc _ => true | .free => false

/-- Number of frees in a heap trace. -/
def freeCount (l : List MemEvent) : Nat :=
  l.countP fun e => match e with | .alloc _ => false | .free => true

/-- Heap trace of inspectAdapter in src/webgpu-utils.c: when malloc succeeds
the buffer is freed (line 194) before the properties section; when malloc
fails nothing was allocated and the function returns at once. -/
def inspectAdapterMemTrace (a : Adapter) (mallocOk : Bool) : List MemEvent :=
  if mallocOk then [.alloc a.features.length, .free] else []

/-- Heap trace of inspectDevice in src/webgpu-utils.c: the buffer is freed
(line 240) before the limits section. -/
def inspectDeviceMemTrace (d : Device) (mallocOk : Bool) : List MemEvent :=
  if mallocOk then [.alloc d.features.length, .free] else []

/-- Heap trace of the inspectAdapter variant in src/main.c (lines 108-169) and
src/unnamed/part_002 (lines 160-222): the feature buffer is malloced and, on
the success path, never freed before the function returns. -/
def inspectAdapterMainCMemTrace (a : Adapter) (mallocOk : Bool) : List MemEvent :=
  if mallocOk then [.alloc a.features.length] else []

/-! ## Lifecycle traces of the main variants -/

/-- The externally visible calls the programs make, in program order. -/
inductive Event
  | createWindow
  | createInstance
  | createSurface
  | requestAdapterCall
  | inspectAdapterCall
  | releaseInstance
  | requestDeviceCall
  | setUncapturedErrorCallback
  | releaseAdapter
  | configureSurface
  | inspectDeviceCall
  | getQueue
  | onSubmittedWorkDoneCall
  | createEncoder
  | insertDebugMarker
  | encoderFinish
  | releaseEncoder
  | queueSubmit
  | releaseCommandBuffer
  | tickPoll
  | releaseQueue
  | releaseDevice
  | releaseSurface
  | destroyWindow
  | sdlQuit
deriving DecidableEq, Repr

/-- How an execution ends: a process exit with a code, or an infinite loop. -/
inductive Outcome
  | exits (code : Nat)
  | loopsForever
deriving DecidableEq, Repr

/-- One execution: the event list in order, then the outcome. -/
structure Trace where
  events : List Event
  outcome : Outcome
deriving DecidableEq, Repr

/-- Environment of one run: whether instance and window creation succeed, the
backend responses (delivered synchronously, the only configuration in which
the native build proceeds past the wrappers), and the queue handle
wgpuDeviceGetQueue returns. -/
structure RunBackend where
  instanceOk : Bool
  adapterStatus : AdapterStatus
  adapterPtr : Ptr
  adapterMessage : String
  deviceStatus : DeviceStatus
  devicePtr : Ptr
  deviceMessage : String
  queuePtr : Ptr
  windowOk : Bool
deriving Repr

/-- Number of occurrences of an event in a list. -/
def countEv (e : Event) (l : List Event) : Nat :=
  l.countP fun x => decide (x = e)

/-- e2 occurs in l, and some occurrence of e1 strictly precedes the first
occurrence of e2. -/
def releasedBefore (e1 e2 : Event) (l : List Event) : Prop :=
  e2 ∈ l ∧ e1 ∈ l.takeWhile fun e => decide (e ≠ e2)

instance (e1 e2 : Event) (l : List Event) : Decidable (releasedBefore e1 e2 l) := by
  unfold releasedBefore; infer_instance

/-- No handle in the acquisition chain is released (or destroyed) twice. -/
def noDoubleRelease (l : List Event) : Prop :=
  countEv .releaseInstance l ≤ 1 ∧ countEv .releaseAdapter l ≤ 1 ∧
  countEv .releaseDevice l ≤ 1 ∧ countEv .releaseQueue l ≤ 1 ∧
  countEv .releaseSurface l ≤ 1 ∧ countEv .destroyWindow l ≤ 1

instance (l : List Event) : Decidable (noDoubleRelease l) := by
  unfold noDoubleRelease; infer_instance

/-- The adapter handle part_001 (and initWebGPU) obtains from
requestAdapterSync, with the backend response delivered synchronously. -/
def part001_adapter (b : RunBackend) : Ptr :=
  match (requestAdapterSync .native
      { delivery := .sync, status := b.adapterStatus,
        adapter := b.adapterPtr, message := b.adapterMessage }).1 with
  | .returns r _ => r
  | _ => none

/-- initWebGPU (src/webgpu-utils.c lines 366-532): event list and boolean
result.  On instance-creation failure it returns immediately (the C source
returns NULL from a bool function, i.e. false).  Otherwise the full linear
sequence runs unconditionally -- note that neither a null adapter nor a null
device interrupts it -- until the queue null-check, the only failure check
after instance creation. -/
def initWebGPU (b : RunBackend) : List Event × Bool :=
  if b.instanceOk = false then
    ([.createInstance], false)
  else
    let pre : List Event :=
      [.createInstance, .createSurface, .requestAdapterCall, .inspectAdapterCall,
       .releaseInstance, .requestDeviceCall, .setUncapturedErrorCallback,
       .releaseAdapter, .configureSurface, .inspectDeviceCall, .getQueue]
    if b.queuePtr = none then
      (pre, false)
    else
      (pre ++ [.onSubmittedWorkDoneCall], true)

/-- The Context struct of src/global.h. -/
structure Context where
  window : Ptr
  device : Ptr
  queue : Ptr
  surface : Ptr
deriving DecidableEq, Repr

/-- closeContext (src/unnamed/part_000 lines 74-79): releases the queue, then
the device, then destroys the window and quits SDL.  The calls are
unconditional -- they do not inspect which handles the context still holds --
and the surface is never released. -/
def closeContext (_c : Context) : List Event :=
  [.releaseQueue, .releaseDevice, .destroyWindow, .sdlQuit]

/-- main of src/unnamed/part_000 (lines 82-142): initApp (window + initWebGPU,
result ignored), then encoder creation and command submission regardless of
any earlier failure, five tick/poll iterations, and then an infinite empty
loop; the closeContext call and the final return after it are unreachable. -/
def main_part000 (b : RunBackend) : Trace :=
  let initEvents : List Event :=
    if b.windowOk = false then [.createWindow, .sdlQuit]
    else .createWindow :: (initWebGPU b).1
  { events := initEvents ++
      [.createEncoder, .insertDebugMarker, .insertDebugMarker, .encoderFinish,
       .releaseEncoder, .queueSubmit, .releaseCommandBuffer,
       .tickPoll, .tickPoll, .tickPoll, .tickPoll, .tickPoll],
    outcome := .loopsForever }

/-- main of src/unnamed/part_001 (lines 62-267): exit 1 on instance-creation
failure; otherwise the full linear sequence runs unconditionally (a failed
adapter or device request does not interrupt it), ending with releaseQueue,
releaseDevice and exit 0. -/
def main_part001 (b : RunBackend) : Trace :=
  if b.instanceOk = false then
    { events := [.createInstance], outcome := .exits 1 }
  else
    { events :=
        [.createInstance, .requestAdapterCall, .releaseInstance, .inspectAdapterCall,
         .requestDeviceCall, .setUncapturedErrorCallback, .releaseAdapter,
         .inspectDeviceCall, .getQueue, .onSubmittedWorkDoneCall,
         .createEncoder, .insertDebugMarker, .insertDebugMarker, .encoderFinish,
         .releaseEncoder, .queueSubmit, .releaseCommandBuffer,
         .tickPoll, .tickPoll, .tickPoll, .tickPoll, .tickPoll,
         .releaseQueue, .releaseDevice],
      outcome := .exits 0 }

/-- main of src/unnamed/part_002 (lines 299-450): like part_001 but with no
queue retrieval, no submission and no queue release; it releases only the
instance, the adapter and the device, then exits 0. -/
def main_part002 (b : RunBackend) : Trace :=
  if b.instanceOk = false then
    { events := [.createInstance], outcome := .exits 1 }
  else
    { events :=
        [.createInstance, .requestAdapterCall, .releaseInstance, .inspectAdapterCall,
         .requestDeviceCall, .setUncapturedErrorCallback, .releaseAdapter,
         .inspectDeviceCall, .releaseDevice],
      outcome := .exits 0 }

/-- main of src/main.c (lines 172-267): the adapter-only demo; it requests an
adapter, releases the instance, inspects the adapter, releases the adapter and
exits 0 (or exits 1 on instance-creation failure). -/
def main_mainc (b : RunBackend) : Trace :=
  if b.instanceOk = false then
    { events := [.createInstance], outcome := .exits 1 }
  else
    { events :=
        [.createInstance, .requestAdapterCall, .releaseInstance,
         .inspectAdapterCall, .releaseAdapter],
      outcome := .exits 0 }

/-! ## Concrete sample inputs used by counterexamples and witnesses -/

/-- A backend where everything succeeds. -/
def okBackend : RunBackend :=
  { instanceOk := true, adapterStatus := .success, adapterPtr := some 1,
    adapterMessage := "", deviceStatus := .success, devicePtr := some 2,
    deviceMessage := "", queuePtr := some 3, windowOk := true }

/-- A backend whose adapter request reports Error with message
"no compatible adapter". -/
def errBackend : RunBackend :=
  { instanceOk := true, adapterStatus := .error, adapterPtr := none,
    adapterMessage := "no compatible adapter", deviceStatus := .success,
    devicePtr := some 2, deviceMessage := "", queuePtr := some 3, windowOk := true }

/-- A backend where everything succeeds except that wgpuDeviceGetQueue
returns NULL. -/
def noQueueBackend : RunBackend :=
  { instanceOk := true, adapterStatus := .success, adapterPtr := some 1,
    adapterMessage := "", deviceStatus := .success, devicePtr := some 2,
    deviceMessage := "", queuePtr := none, windowOk := true }

/-- A context holding every handle in the chain. -/
def fullContext : Context :=
  { window := some 1, device := some 2, queue := some 3, surface := some 4 }

/-- An SDL window with every native property available. -/
def sampleWindow : SDLWindow :=
  { win32HWND := some 10, appleView := some 11, waylandDisplay := some 12,
    waylandSurfacePtr := some 13, x11Display := some 14, x11Window := 15,
    videoDriver := "x11" }

/-- An SDL window on which every pointer property is unavailable (NULL). -/
def nullPropsWindow : SDLWindow :=
  { win32HWND := none, appleView := none, waylandDisplay := none,
    waylandSurfacePtr := none, x11Display := none, x11Window := 0,
    videoDriver := "windows" }

/-- A sample adapter for concrete evaluations. -/
def sampleAdapter : Adapter :=
  { limits := some { maxTextureDimension1D := 8192, maxTextureDimension2D := 8192,
                     maxTextureDimension3D := 2048, maxTextureArrayLayers := 256 },
    features := [1, 2, 3],
    properties := { vendorID := 4318, vendorName := some "NVIDIA",
                    architecture := none, deviceID := 7040,
                    driverDescription := none, adapterType := 0, backendType := 3 } }

/-! ## Claim theorems -/

/-- Claim C1 (counterexample): when the adapter request reports Error with
message "no compatible adapter", part_001's main still issues the device
request and the process exits with status 0, not 1: initialization does not
short-circuit on adapter failure. -/
theorem adapter_failure_no_shortcircuit_cex :
    Event.requestDeviceCall ∈ (main_part001 errBackend).events ∧
    (main_part001 errBackend).outcome = .exits 0 ∧
    (main_part001 errBackend).outcome ≠ .exits 1 := by decide

/-- Claim C1 (amended): if the adapter request reports an error, the wrapper
returns a null adapter and the connection has indeed already been released
before the device request is made; but nothing short-circuits: the device
request is still issued, with the null adapter, in both initWebGPU and
part_001, and the process exits with status 0.  Exit status 1 is produced
only by instance-creation failure. -/
theorem adapter_failure_continues :
    (∀ b : RunBackend, b.instanceOk = true → b.adapterStatus ≠ .success →
      part001_adapter b = none ∧
      releasedBefore .releaseInstance .requestDeviceCall (main_part001 b).events ∧
      Event.requestDeviceCall ∈ (initWebGPU b).1 ∧
      (main_part001 b).outcome = .exits 0) ∧
    (∀ b : RunBackend, b.instanceOk = false →
      (main_part001 b).outcome = .exits 1) := by
  constructor
  · intro b hio hst
    refine ⟨?_, ?_, ?_, ?_⟩
    · simp [part001_adapter, requestAdapterSync, onAdapterRequestEnded, hst]
    · simp [main_part001, hio]
      decide
    · rcases hq : b.queuePtr with _ | qv <;> simp [initWebGPU, hio, hq]
    · simp [main_part001, hio]
  · intro b hio
    simp [main_part001, hio]

/-- Claim C1 (witness): the amended theorem at the concrete failing backend. -/
theorem adapter_failure_continues_witness :
    part001_adapter errBackend = none ∧
    releasedBefore .releaseInstance .requestDeviceCall (main_part001 errBackend).events ∧
    Event.requestDeviceCall ∈ (initWebGPU errBackend).1 ∧
    (main_part001 errBackend).outcome = .exits 0 :=
  adapter_failure_continues.1 errBackend rfl (by decide)

/-- Claim C2 (counterexample): on the native build of src/webgpu-utils.c
there is no wait loop, so with a backend that delivers the completion
callback only when the event loop is pumped, the assertion on the completion
flag fails instead of the bridge blocking. -/
theorem bridge_assert_fails_cex :
    (requestAdapterSync .native
      { delivery := .pumped, status := .success, adapter := some 7, message := "ok" }).1 =
      .assertFailed := by decide

/-- Claim C2 (amended): no wrapper ever returns a result while the completion
flag is false, and the Emscripten pump loop means the assertion cannot fail on
that build; the main.c variant spins (diverges) rather than returning early
when the callback is never delivered; but on the native build of
src/webgpu-utils.c there is no wait loop, so whenever the backend does not
deliver the callback synchronously the assertion on the flag fails instead of
the bridge blocking. -/
theorem bridge_flag_discipline :
    (∀ (cfg : BuildConfig) (b : AdapterBackend) (r : Ptr),
      (requestAdapterSync cfg b).1 ≠ .returns r false) ∧
    (∀ (b : AdapterBackend) (r : Ptr),
      (requestAdapterSyncMainC b).1 ≠ .returns r false) ∧
    (∀ (b : DeviceBackend) (r : Ptr),
      (requestDeviceSync b).1 ≠ .returns r false) ∧
    (∀ b : AdapterBackend, b.delivery ≠ .sync →
      (requestAdapterSync .native b).1 = .assertFailed) ∧
    (∀ b : AdapterBackend, (requestAdapterSync .emscripten b).1 ≠ .assertFailed) ∧
    (∀ b : AdapterBackend, b.delivery = .dropped →
      (requestAdapterSyncMainC b).1 = .diverges) := by
  refine ⟨?_, ?_, ?_, ?_, ?_, ?_⟩
  · intro cfg b r
    rcases b with ⟨dv, st, ad, ms⟩
    cases cfg <;> cases dv <;> cases st <;>
      simp [requestAdapterSync, onAdapterRequestEnded]
  · intro b r
    rcases b with ⟨dv, st, ad, ms⟩
    cases dv <;> cases st <;>
      simp [requestAdapterSyncMainC, onAdapterRequestEnded]
  · intro b r
    rcases b with ⟨dv, st, dev, ms⟩
    cases dv <;> cases st <;>
      simp [requestDeviceSync, onDeviceRequestEnded]
  · intro b hd
    rcases b with ⟨dv, st, ad, ms⟩
    cases dv <;> simp_all [requestAdapterSync]
  · intro b
    rcases b with ⟨dv, st, ad, ms⟩
    cases dv <;> cases st <;>
      simp [requestAdapterSync, onAdapterRequestEnded]
  · intro b hd
    rcases b with ⟨dv, st, ad, ms⟩
    cases hd
    simp [requestAdapterSyncMainC]

/-- Claim C2 (witness): the amended theorem at a concrete deferred-delivery
backend on the native build. -/
theorem bridge_flag_discipline_witness :
    (requestAdapterSync .native
      { delivery := .pumped, status := .success, adapter := some 7, message := "m" }).1 =
      .assertFailed :=
  bridge_flag_discipline.2.2.2.1 _ (by decide)

/-- Claim C3 (counterexample): when the backend reports failure, the bridge
returns exactly the null sentinel (a NULL WGPUAdapter with the flag set), and
two failures with different messages produce the same returned value, so no
reason or message reaches the caller through the return value. -/
theorem failure_returns_null_sentinel_cex :
    (requestAdapterSync .native
      { delivery := .sync, status := .error, adapter := none,
        message := "no compatible adapter" }).1 = .returns none true ∧
    (requestAdapterSync .native
      { delivery := .sync, status := .error, adapter := none,
        message := "no compatible adapter" }).1 =
    (requestAdapterSync .native
      { delivery := .sync, status := .error, adapter := none,
        message := "a different reason" }).1 :=
  ⟨rfl, rfl⟩

/-- Claim C3 (amended): on a backend-reported failure (delivered
synchronously), the callback logs the failure message to stderr and the
wrapper returns the null sentinel to its caller; no failure value carrying
the reason or message is returned. -/
theorem failure_logged_null_returned :
    (∀ (cfg : BuildConfig) (b : AdapterBackend),
      b.delivery = .sync → b.status ≠ .success →
      requestAdapterSync cfg b =
        (.returns none true, ["Could not get WebGPU adapter: " ++ b.message])) ∧
    (∀ b : DeviceBackend,
      b.delivery = .sync → b.status ≠ .success →
      requestDeviceSync b =
        (.returns none true, ["Could not get WebGPU device: " ++ b.message])) := by
  constructor
  · intro cfg b hd hs
    rcases b with ⟨dv, st, ad, ms⟩
    cases hd
    cases cfg <;> simp_all [requestAdapterSync, onAdapterRequestEnded]
  · intro b hd hs
    rcases b with ⟨dv, st, dev, ms⟩
    cases hd
    simp_all [requestDeviceSync, onDeviceRequestEnded]

/-- Claim C3 (witness): the amended theorem at the concrete failing request. -/
theorem failure_logged_null_returned_witness :
    requestAdapterSync .native
      { delivery := .sync, status := .error, adapter := none,
        message := "no compatible adapter" } =
      (.returns none true, ["Could not get WebGPU adapter: " ++ "no compatible adapter"]) :=
  failure_logged_null_returned.1 .native _ rfl (by decide)

/-- Claim C4 (code bug): the Emscripten wait loop of requestDeviceSync
(src/webgpu-utils.c line 136, src/unnamed/part_002 line 136) reads
adapterData.requestEnded -- the adapter request record's flag, which is not
even declared inside requestDeviceSync -- instead of the flag of the
DeviceRequestData record it created, so the two wait loops name the same
record and a loop observing that reference sees a value different from the
device request's own flag. -/
theorem device_wait_loop_reads_adapter_flag :
    requestAdapterSyncWaitFlagRef = .adapterDataFlag ∧
    requestDeviceSyncWaitFlagRef = .adapterDataFlag ∧
    requestDeviceSyncWaitFlagRef ≠ .deviceDataFlag ∧
    waitLoopObservedFlag requestDeviceSyncWaitFlagRef true false ≠
      waitLoopObservedFlag .deviceDataFlag true false := by decide

/-- Claim C5 (counterexample): on a platform matched by none of the three
SDL platform branches, create_wgpu_surface does not fail: it still calls
wgpuInstanceCreateSurface, with a descriptor carrying no platform chain; and
on Windows with the HWND property unavailable (NULL), the NULL handle is
embedded in the descriptor instead of the binder failing. -/
theorem unknown_backend_still_creates_surface_cex :
    create_wgpu_surface .other (some 1) sampleWindow =
      .created { label := "Cross-Platform Surface", nextInChain := none } ∧
    create_wgpu_surface .other (some 1) sampleWindow ≠ .bindingFailed ∧
    create_wgpu_surface .win32 (some 1) nullPropsWindow =
      .created { label := "Cross-Platform Surface",
                 nextInChain := some (.fromWindowsHWND (some 1) none) } :=
  ⟨rfl, by decide, rfl⟩

/-- Claim C5 (amended): for every supported windowing backend the produced
descriptor's tagged variant matches the active backend (Windows to HWND,
Apple to Metal layer, Linux to Wayland when the current video driver is
"wayland" and to Xlib otherwise); but the binder never fails: on an unknown
platform it produces a descriptor with no platform chain, and null native
properties are passed through unchecked. -/
theorem surface_descriptor_matches_backend :
    ∀ (hinstance : Ptr) (w : SDLWindow),
      create_wgpu_surface .win32 hinstance w =
        .created { label := "Cross-Platform Surface",
                   nextInChain := some (.fromWindowsHWND hinstance w.win32HWND) } ∧
      create_wgpu_surface .apple hinstance w =
        .created { label := "Cross-Platform Surface",
                   nextInChain := some (.fromMetalLayer w.appleView) } ∧
      create_wgpu_surface .linux hinstance w =
        .created { label := "Cross-Platform Surface",
                   nextInChain := some (if w.videoDriver = "wayland" then
                       .fromWaylandSurface w.waylandDisplay w.waylandSurfacePtr
                     else
                       .fromXlibWindow w.x11Display w.x11Window) } ∧
      create_wgpu_surface .other hinstance w =
        .created { label := "Cross-Platform Surface", nextInChain := none } ∧
      (∀ p : SDLPlatform, create_wgpu_surface p hinstance w ≠ .bindingFailed) := by
  intro hinstance w
  refine ⟨rfl, rfl, ?_, rfl, ?_⟩
  · by_cases h : w.videoDriver = "wayland" <;> simp [create_wgpu_surface, h]
  · intro p
    cases p <;> by_cases h : w.videoDriver = "wayland" <;>
      simp [create_wgpu_surface, h]

/-- Claim C5 (witness): the amended theorem at a concrete window, in the
Wayland configuration. -/
theorem surface_descriptor_matches_backend_witness :
    create_wgpu_surface .linux (some 1)
      { sampleWindow with videoDriver := "wayland" } =
      .created { label := "Cross-Platform Surface",
                 nextInChain := some (.fromWaylandSurface (some 12) (some 13)) } := by
  have h := (surface_descriptor_matches_backend (some 1)
    { sampleWindow with videoDriver := "wayland" }).2.2.1
  simpa using h

/-- Claim C6 (counterexample): in part_000's main with an all-success backend
a device is acquired, yet the queue and device are never released and the
process never exits: the closeContext call is unreachable behind the infinite
main loop. -/
theorem part000_never_releases_device_cex :
    Event.requestDeviceCall ∈ (main_part000 okBackend).events ∧
    countEv .releaseDevice (main_part000 okBackend).events = 0 ∧
    countEv .releaseQueue (main_part000 okBackend).events = 0 ∧
    (main_part000 okBackend).outcome = .loopsForever := by decide

/-- Claim C6 (amended): no object in the chain is released twice in any
variant; in part_001 the queue release precedes the device release, which
precedes the exit with status 0; part_002 releases the device before exit but
never acquires or releases a queue; and in part_000 the teardown is
unreachable, so the queue and device are never released and the process never
exits. -/
theorem release_ordering_amended :
    (∀ b : RunBackend,
      noDoubleRelease (main_part000 b).events ∧ noDoubleRelease (main_part001 b).events ∧
      noDoubleRelease (main_part002 b).events ∧ noDoubleRelease (main_mainc b).events) ∧
    (∀ b : RunBackend, b.instanceOk = true →
      releasedBefore .releaseQueue .releaseDevice (main_part001 b).events ∧
      Event.releaseDevice ∈ (main_part001 b).events ∧
      (main_part001 b).outcome = .exits 0) ∧
    (∀ b : RunBackend, b.instanceOk = true →
      Event.releaseDevice ∈ (main_part002 b).events ∧
      countEv .releaseQueue (main_part002 b).events = 0 ∧
      (main_part002 b).outcome = .exits 0) ∧
    (∀ b : RunBackend,
      (main_part000 b).outcome = .loopsForever ∧
      countEv .releaseDevice (main_part000 b).events = 0 ∧
      countEv .releaseQueue (main_part000 b).events = 0) := by
  refine ⟨?_, ?_, ?_, ?_⟩
  · intro b
    rcases b with ⟨io, as, ap, am, ds, dp, dm, qp, wo⟩
    cases io <;> cases wo <;> rcases qp with _ | qv <;>
      simp [main_part000, main_part001, main_part002, main_mainc, initWebGPU] <;> decide
  · intro b h
    rcases b with ⟨io, as, ap, am, ds, dp, dm, qp, wo⟩
    subst h
    simp [main_part001]
    decide
  · intro b h
    rcases b with ⟨io, as, ap, am, ds, dp, dm, qp, wo⟩
    subst h
    simp [main_part002]
    decide
  · intro b
    rcases b with ⟨io, as, ap, am, ds, dp, dm, qp, wo⟩
    cases io <;> cases wo <;> rcases qp with _ | qv <;>
      simp [main_part000, initWebGPU] <;> decide

/-- Claim C6 (witness): the amended theorem at the all-success backend. -/
theorem release_ordering_amended_witness :
    releasedBefore .releaseQueue .releaseDevice (main_part001 okBackend).events ∧
    Event.releaseDevice ∈ (main_part001 okBackend).events ∧
    (main_part001 okBackend).outcome = .exits 0 :=
  release_ordering_amended.2.1 okBackend rfl

/-- Claim C7 (counterexample): on a context holding every handle, including a
surface, closeContext releases the queue, the device, destroys the window and
quits SDL -- but never releases the surface, contradicting the claimed
Queue-Device-Surface-window teardown order. -/
theorem teardown_skips_surface_cex :
    fullContext.surface = some 4 ∧
    countEv .releaseSurface (closeContext fullContext) = 0 ∧
    closeContext fullContext =
      [.releaseQueue, .releaseDevice, .destroyWindow, .sdlQuit] := by decide

/-- Claim C7 (amended): teardown (closeContext) unconditionally releases the
queue, then the device, then destroys the window and quits SDL, regardless of
which handles the context still holds; the surface is never released.  On
initWebGPU's only post-instance failure path (null queue) the function
returns false having released exactly the instance and the adapter; the
device, queue and surface are not released there. -/
theorem closeContext_release_order :
    (∀ c : Context,
      closeContext c = [.releaseQueue, .releaseDevice, .destroyWindow, .sdlQuit] ∧
      releasedBefore .releaseQueue .releaseDevice (closeContext c) ∧
      countEv .releaseSurface (closeContext c) = 0) ∧
    (∀ b : RunBackend, b.instanceOk = true → b.queuePtr = none →
      (initWebGPU b).2 = false ∧
      countEv .releaseInstance (initWebGPU b).1 = 1 ∧
      countEv .releaseAdapter (initWebGPU b).1 = 1 ∧
      countEv .releaseDevice (initWebGPU b).1 = 0 ∧
      countEv .releaseQueue (initWebGPU b).1 = 0 ∧
      countEv .releaseSurface (initWebGPU b).1 = 0) := by
  constructor
  · intro c
    refine ⟨rfl, ?_, ?_⟩ <;> simp only [closeContext] <;> decide
  · intro b h1 h2
    rcases b with ⟨io, as, ap, am, ds, dp, dm, qp, wo⟩
    subst h1
    subst h2
    simp [initWebGPU]
    decide

/-- Claim C7 (witness): the amended theorem at the concrete backend whose
queue retrieval fails. -/
theorem closeContext_release_order_witness :
    (initWebGPU noQueueBackend).2 = false ∧
    countEv .releaseInstance (initWebGPU noQueueBackend).1 = 1 ∧
    countEv .releaseAdapter (initWebGPU noQueueBackend).1 = 1 ∧
    countEv .releaseDevice (initWebGPU noQueueBackend).1 = 0 ∧
    countEv .releaseQueue (initWebGPU noQueueBackend).1 = 0 ∧
    countEv .releaseSurface (initWebGPU noQueueBackend).1 = 0 :=
  closeContext_release_order.2 noQueueBackend rfl rfl

/-- Claim C8 (counterexample): the inspectAdapter variant of src/main.c (and
src/unnamed/part_002) allocates the feature buffer and, on a successful
malloc, returns without freeing it: one allocation, zero frees. -/
theorem mainc_inspect_leaks_cex :
    inspectAdapterMainCMemTrace sampleAdapter true = [.alloc 3] ∧
    allocCount (inspectAdapterMainCMemTrace sampleAdapter true) = 1 ∧
    freeCount (inspectAdapterMainCMemTrace sampleAdapter true) = 0 := by decide

/-- Claim C8 (amended): in src/webgpu-utils.c both inspectAdapter and
inspectDevice free their feature buffer on every return path (either the
malloc failed and nothing was allocated, or the buffer is freed before
return); the older inspectAdapter variant in src/main.c and
src/unnamed/part_002 allocates the buffer and never frees it on the success
path. -/
theorem inspect_mem_traces :
    (∀ (a : Adapter) (m : Bool),
      allocCount (inspectAdapterMemTrace a m) = freeCount (inspectAdapterMemTrace a m)) ∧
    (∀ (d : Device) (m : Bool),
      allocCount (inspectDeviceMemTrace d m) = freeCount (inspectDeviceMemTrace d m)) ∧
    (∀ a : Adapter,
      inspectAdapterMainCMemTrace a true = [.alloc a.features.length]) ∧
    (∀ a : Adapter,
      freeCount (inspectAdapterMainCMemTrace a true) = 0) := by
  refine ⟨?_, ?_, ?_, ?_⟩
  · intro a m
    cases m <;> rfl
  · intro d m
    cases m <;> rfl
  · intro a
    rfl
  · intro a
    rfl

/-- Claim C9 (confirmed): inspecting an adapter performs only read-only
backend queries, so the adapter state is unchanged by the call, and a second
call on the state left by the first (with the same allocator behaviour)
produces an identical capability report -- in particular an equal feature
list and equal limits. -/
theorem inspectAdapter_readonly_idempotent :
    ∀ (a : Adapter) (m : Bool),
      (inspectAdapter a m).2 = a ∧
      (inspectAdapter ((inspectAdapter a m).2) m).1 = (inspectAdapter a m).1 := by
  intro a m
  cases m <;> exact ⟨rfl, rfl⟩

/-- Claim C10 (confirmed): every completion callback sets the requestEnded
flag regardless of status and writes the result slot only on Success; hence,
when the callback has run before the wrapper returns (synchronous delivery)
and a successful backend supplies a non-null handle, the wrapper returns a
null handle exactly when the backend reported a non-success status. -/
theorem callback_flag_slot_null_iff_failure :
    (∀ (s : AdapterStatus) (p : Ptr) (m : String) (d : AdapterRequestData),
      (onAdapterRequestEnded s p m d).1.requestEnded = true ∧
      (onAdapterRequestEnded s p m d).1.adapter =
        (if s = .success then p else d.adapter)) ∧
    (∀ (s : DeviceStatus) (p : Ptr) (m : String) (d : DeviceRequestData),
      (onDeviceRequestEnded s p m d).1.requestEnded = true ∧
      (onDeviceRequestEnded s p m d).1.device =
        (if s = .success then p else d.device)) ∧
    (∀ (cfg : BuildConfig) (b : AdapterBackend), b.delivery = .sync →
      (requestAdapterSync cfg b).1 =
        .returns (if b.status = .success then b.adapter else none) true) ∧
    (∀ (cfg : BuildConfig) (b : AdapterBackend), b.delivery = .sync →
      (b.status = .success → b.adapter ≠ none) →
      ((requestAdapterSync cfg b).1 = .returns none true ↔ b.status ≠ .success)) ∧
    (∀ b : DeviceBackend, b.delivery = .sync →
      (requestDeviceSync b).1 =
        .returns (if b.status = .success then b.device else none) true) ∧
    (∀ b : DeviceBackend, b.delivery = .sync →
      (b.status = .success → b.device ≠ none) →
      ((requestDeviceSync b).1 = .returns none true ↔ b.status ≠ .success)) := by
  have hA : ∀ (cfg : BuildConfig) (b : AdapterBackend), b.delivery = .sync →
      (requestAdapterSync cfg b).1 =
        .returns (if b.status = .success then b.adapter else none) true := by
    intro cfg b hd
    rcases b with ⟨dv, st, ad, ms⟩
    cases hd
    cases cfg <;> by_cases h : st = .success <;>
      simp [requestAdapterSync, onAdapterRequestEnded, h]
  have hD : ∀ b : DeviceBackend, b.delivery = .sync →
      (requestDeviceSync b).1 =
        .returns (if b.status = .success then b.device else none) true := by
    intro b hd
    rcases b with ⟨dv, st, dev, ms⟩
    cases hd
    by_cases h : st = .success <;>
      simp [requestDeviceSync, onDeviceRequestEnded, h]
  refine ⟨?_, ?_, hA, ?_, hD, ?_⟩
  · intro s p m d
    by_cases h : s = .success <;> simp [onAdapterRequestEnded, h]
  · intro s p m d
    by_cases h : s = .success <;> simp [onDeviceRequestEnded, h]
  · intro cfg b hd hnn
    rw [hA cfg b hd]
    by_cases h : b.status = .success
    · simp [h, hnn h]
    · simp [h]
  · intro b hd hnn
    rw [hD b hd]
    by_cases h : b.status = .success
    · simp [h, hnn h]
    · simp [h]

/-- Claim C10 (witness): the flag-and-slot theorem at a concrete failing
adapter request: the returned handle is null exactly because the status was
not Success. -/
theorem callback_flag_slot_null_iff_failure_witness :
    (requestAdapterSync .native
      { delivery := .sync, status := .error, adapter := none, message := "m" }).1 =
      .returns none true ↔ AdapterStatus.error ≠ .success :=
  callback_flag_slot_null_iff_failure.2.2.2.1 .native _ rfl (by decide)

end WebGPU
